import Mathlib

/-!
Shallow embedding of the typed error-normalization layer and the query-key /
cache-invalidation protocol of the `project-templates` repository.

The embedded source files are:
* `src/utils/errors/apiErrorResponse.ts` — `ApiResponseError`,
  `isDataApiErrorResponse`, `throwApiResponseErrFromKyErr`;
* `templates/vite-ts-router/src/api/apiClient.ts` — the ky `beforeError` hook;
* `templates/vite-ts-router/src/features/products/api/queryOptions.ts` —
  `listProductsOptions`, `productDetailOptions`;
* `templates/vite-ts-router/src/features/products/api/mutations.ts` —
  `useCreateProduct`.

JavaScript runtime values that can reach this code are modelled as follows:
parsed JSON bodies are `JsonValue`; `undefined` is `Option.none`; thrown
values are `JsError` (with opaque `Nat` tags standing for object identity of
values whose structure the code never inspects); an `async` function body is a
total function into `Outcome`, whose `throws` constructor is promise
rejection and whose `resolves` constructor is normal completion.
-/

namespace ProjectTemplates

/-- A JSON value as produced by `Response.json()` / `JSON.parse`. -/
inductive JsonValue where
  | null
  | bool (b : Bool)
  | num (n : Int)
  | str (s : String)
  | arr (elems : List JsonValue)
  | obj (fields : List (String × JsonValue))

/-- Property-name membership test on an object's field list: the JavaScript
`key in data` operator for a parsed-JSON object. -/
def jsonHasKey (kvs : List (String × JsonValue)) (k : String) : Bool :=
  kvs.any (fun p => p.1 == k)

/-- Property read `data[k]` on an object's field list; `none` is `undefined`. -/
def jsonLookup (kvs : List (String × JsonValue)) (k : String) : Option JsonValue :=
  match kvs.find? (fun p => p.1 == k) with
  | some p => some p.2
  | none => none

mutual

/-- JavaScript `String(v)` coercion on parsed-JSON values, as applied by the
`Error` constructor to the `message` argument. -/
def jsStringOf : JsonValue → String
  | JsonValue.null => "null"
  | JsonValue.bool b => if b then "true" else "false"
  | JsonValue.num n => toString n
  | JsonValue.str s => s
  | JsonValue.arr xs => jsStringOfElems xs
  | JsonValue.obj _ => "[object Object]"

/-- `Array.prototype.toString`: elements coerced with `String` (with `null`
rendered empty) and joined by commas. -/
def jsStringOfElems : List JsonValue → String
  | [] => ""
  | [JsonValue.null] => ""
  | [v] => jsStringOf v
  | JsonValue.null :: rest => "," ++ jsStringOfElems rest
  | v :: rest => jsStringOf v ++ "," ++ jsStringOfElems rest

end

/-- Model of es-toolkit's `isPlainObject`, restricted to the value universe
that can reach the classifier here (parsed JSON, or `undefined` = `none`):
only a JSON object is a plain object; arrays, `null`, scalars and `undefined`
are not. -/
def isPlainObject : Option JsonValue → Bool
  | some (JsonValue.obj _) => true
  | _ => false

/-- The guarded membership test `'message' in data` of the source, on the same
value universe (it is only evaluated after `isPlainObject(data)` holds). -/
def hasMessageProperty : Option JsonValue → Bool
  | some (JsonValue.obj kvs) => jsonHasKey kvs "message"
  | _ => false

/-- Translation of `isDataApiErrorResponse` from
`src/utils/errors/apiErrorResponse.ts` (the textually identical variant in
`src/unnamed/part_008` is covered by this same definition):
`if (isPlainObject(data) && 'message' in data) return true; return false`. -/
def isDataApiErrorResponse (data : Option JsonValue) : Bool :=
  isPlainObject data && hasMessageProperty data

/-- Modelled from the spec: the recognition invariant of spec section 3 — a
payload is recognized iff it is a plain key-value record (not an array, not
null) containing the `message` key with a string value. Stated only to compare
the spec's wording with `isDataApiErrorResponse`; the `ApiErrorResponse`
TypeScript type it decodes into is declared outside the shipped sources. -/
def specRecognizedErrorPayload (data : Option JsonValue) : Bool :=
  match data with
  | some (JsonValue.obj kvs) =>
    match jsonLookup kvs "message" with
    | some (JsonValue.str _) => true
    | _ => false
  | _ => false

/-- The slice of a ky `HTTPError`'s `Response` the classifier uses: the
outcome of the single `response.json()` read — a parsed value, or a body-read
failure (non-JSON body, already consumed stream) identified by a tag. -/
structure HttpResponse where
  json : Except Nat JsonValue

/-- A ky `HTTPError` transport failure: an identity tag (the failures are
compared as JavaScript object identities) plus its response. -/
structure HTTPError where
  tag : Nat
  response : HttpResponse

/-- Translation of the `ApiResponseError` class state: it owns the original
transport failure (`err`) and the parsed payload (`data`). -/
structure ApiResponseError where
  err : HTTPError
  data : JsonValue

/-- The `message` property set by the constructor's `super(data.message)`:
the `message` field of the payload coerced to a string by the `Error`
constructor, empty when absent. -/
def ApiResponseError.message (a : ApiResponseError) : String :=
  match a.data with
  | JsonValue.obj kvs =>
    match jsonLookup kvs "message" with
    | some v => jsStringOf v
    | none => ""
  | _ => ""

/-- A thrown JavaScript value as seen by the classifier: a ky `HTTPError`, an
`ApiResponseError`, the rejection raised by a failing `response.json()` read,
or any other thrown value (programming errors, network-level aborts, ...),
identified by an opaque tag. -/
inductive JsError where
  | httpError (e : HTTPError)
  | apiResponseError (a : ApiResponseError)
  | bodyReadError (tag : Nat)
  | foreign (tag : Nat)

/-- Result of running an `async` function body: normal completion with a value
(promise fulfillment) or a throw (promise rejection). -/
inductive Outcome where
  | resolves (v : Option JsonValue)
  | throws (e : JsError)

/-- The `err instanceof HTTPError` test of the source. -/
def isHttpError : JsError → Bool
  | JsError.httpError _ => true
  | _ => false

/-- Translation of `throwApiResponseErrFromKyErr` from
`src/utils/errors/apiErrorResponse.ts`:
non-`HTTPError` inputs are re-thrown; otherwise `await err.response.json()`
runs (its rejection, if any, propagates — there is no catch around it); an
unrecognized parsed body re-throws the original failure; a recognized one
throws `new ApiResponseError(err, data)`. -/
def throwApiResponseErrFromKyErr (err : JsError) : Outcome :=
  match err with
  | JsError.httpError e =>
    match e.response.json with
    | Except.error t => Outcome.throws (JsError.bodyReadError t)
    | Except.ok data =>
      if isDataApiErrorResponse (some data) then
        Outcome.throws (JsError.apiResponseError { err := e, data := data })
      else
        Outcome.throws (JsError.httpError e)
  | notHttp => Outcome.throws notHttp

/-- Whether evaluation of `throwApiResponseErrFromKyErr` reaches the
`await err.response.json()` body read: exactly when the
`err instanceof HTTPError` guard passes. -/
def classifierReadsBody : JsError → Bool
  | JsError.httpError _ => true
  | _ => false

/-- Translation of the ky `beforeError` hook of
`templates/vite-ts-router/src/api/apiClient.ts`:
`data = await error.response.clone().json().catch(() => undefined)`; a
recognized `data` throws `new ApiResponseError(error, data)`; otherwise the
hook returns `error`, which ky then throws to the caller (modelled as the same
re-throw). The `Except.error` branch is the `catch` making `data` equal to
`undefined`, which `isDataApiErrorResponse` rejects. -/
def apiClientBeforeError (error : HTTPError) : Outcome :=
  match error.response.json with
  | Except.ok v =>
    if isDataApiErrorResponse (some v) then
      Outcome.throws (JsError.apiResponseError { err := error, data := v })
    else
      Outcome.throws (JsError.httpError error)
  | Except.error _ => Outcome.throws (JsError.httpError error)

/-- A segment of a TanStack Query key, as built by the query option factories:
a string literal, or an embedded params value (`none` when the optional
`params` argument is `undefined`). -/
inductive KeySegment where
  | str (s : String)
  | json (v : Option JsonValue)

/-- A cache key: an ordered sequence of segments. -/
abbrev CacheKey := List KeySegment

/-- A product, per `productSchema` / the `Product` type. -/
structure Product where
  id : String
  name : String

/-- The fetch closure captured by a query descriptor, by shape. -/
inductive FetchOp where
  | fetchAllProducts (params : Option JsonValue)
  | fetchProductById (id : String)

/-- The object built by `queryOptions({ queryKey, queryFn })`. -/
structure QueryDescriptor where
  queryKey : CacheKey
  queryFn : FetchOp

/-- Translation of `listProductsOptions` from
`templates/vite-ts-router/src/features/products/api/queryOptions.ts`:
`queryKey: ['products', 'list', params]`, fetching `fetchAllProducts(params)`. -/
def listProductsOptions (params : Option JsonValue) : QueryDescriptor :=
  { queryKey := [KeySegment.str "products", KeySegment.str "list", KeySegment.json params]
    queryFn := FetchOp.fetchAllProducts params }

/-- Translation of `productDetailOptions` from the same file:
`queryKey: ['products', 'detail', id]`, fetching `fetchProductById(id)`. -/
def productDetailOptions (id : String) : QueryDescriptor :=
  { queryKey := [KeySegment.str "products", KeySegment.str "detail", KeySegment.str id]
    queryFn := FetchOp.fetchProductById id }

/-- Insertion of one field into a key-sorted field list (by string order). -/
def insertKv (p : String × JsonValue) :
    List (String × JsonValue) → List (String × JsonValue)
  | [] => [p]
  | q :: rest => if p.1 < q.1 then p :: q :: rest else q :: insertKv p rest

/-- Key-sorting of an object's field list. -/
def sortKvs : List (String × JsonValue) → List (String × JsonValue)
  | [] => []
  | p :: rest => insertKv p (sortKvs rest)

mutual

/-- Normal form of a JSON value under the cache engine's structural key
comparison (TanStack Query's key hashing serializes plain-object segments
with their keys sorted, so object-key insertion order is ignored): sort every
object's fields by key, recursively. Two values are structurally equal for
key purposes iff their normal forms coincide. -/
def normalizeJson : JsonValue → JsonValue
  | JsonValue.null => JsonValue.null
  | JsonValue.bool b => JsonValue.bool b
  | JsonValue.num n => JsonValue.num n
  | JsonValue.str s => JsonValue.str s
  | JsonValue.arr xs => JsonValue.arr (normalizeJsonList xs)
  | JsonValue.obj kvs => JsonValue.obj (sortKvs (normalizeJsonKvs kvs))

/-- Pointwise normalization of an array's elements. -/
def normalizeJsonList : List JsonValue → List JsonValue
  | [] => []
  | v :: rest => normalizeJson v :: normalizeJsonList rest

/-- Pointwise normalization of an object's field values. -/
def normalizeJsonKvs : List (String × JsonValue) → List (String × JsonValue)
  | [] => []
  | (k, v) :: rest => (k, normalizeJson v) :: normalizeJsonKvs rest

end

/-- Structural (deep) equality of two JSON values, insensitive to object-key
insertion order. -/
def jsonDeepEqual (a b : JsonValue) : Prop :=
  normalizeJson a = normalizeJson b

/-- Deep equality lifted to possibly-`undefined` params values. -/
def paramsDeepEqual (a b : Option JsonValue) : Prop :=
  a.map normalizeJson = b.map normalizeJson

/-- Structural equality of key segments: string segments compare as strings,
params segments compare deeply (key-order-insensitively). -/
def segStructEqual : KeySegment → KeySegment → Prop
  | KeySegment.str a, KeySegment.str b => a = b
  | KeySegment.json a, KeySegment.json b => paramsDeepEqual a b
  | _, _ => False

/-- Structural equality of cache keys: segment-wise structural equality. -/
def keyStructEqual (k₁ k₂ : CacheKey) : Prop :=
  List.Forall₂ segStructEqual k₁ k₂

mutual

/-- Boolean structural equality of JSON values (exact, order-sensitive),
used by the cache engine's filter matching on already-built key segments. -/
def jsonBeq : JsonValue → JsonValue → Bool
  | JsonValue.null, JsonValue.null => true
  | JsonValue.bool a, JsonValue.bool b => a == b
  | JsonValue.num a, JsonValue.num b => a == b
  | JsonValue.str a, JsonValue.str b => a == b
  | JsonValue.arr a, JsonValue.arr b => jsonBeqList a b
  | JsonValue.obj a, JsonValue.obj b => jsonBeqKvs a b
  | _, _ => false

/-- Elementwise equality of arrays. -/
def jsonBeqList : List JsonValue → List JsonValue → Bool
  | [], [] => true
  | a :: as, b :: bs => jsonBeq a b && jsonBeqList as bs
  | _, _ => false

/-- Fieldwise equality of objects. -/
def jsonBeqKvs : List (String × JsonValue) → List (String × JsonValue) → Bool
  | [], [] => true
  | (ka, va) :: as, (kb, vb) :: bs => ka == kb && jsonBeq va vb && jsonBeqKvs as bs
  | _, _ => false

end

/-- Equality of key segments used when matching a filter key against a cached
key. -/
def segBeq : KeySegment → KeySegment → Bool
  | KeySegment.str a, KeySegment.str b => a == b
  | KeySegment.json (some a), KeySegment.json (some b) => jsonBeq a b
  | KeySegment.json none, KeySegment.json none => true
  | _, _ => false

/-- Whether a filter key matches a cached key: every segment of the filter
matches the corresponding leading segment of the cached key (the cache
engine's default non-exact matching — a filter key matches every cached key
it is an initial segment of). -/
def keyMatchesFilter : CacheKey → CacheKey → Bool
  | [], _ => true
  | _ :: _, [] => false
  | f :: fs, k :: ks => segBeq f k && keyMatchesFilter fs ks

/-- One entry of the cache engine's key-addressed store: its key, its cached
value, and whether it is marked stale (to be re-fetched on next read). -/
structure CacheEntry where
  key : CacheKey
  value : Option JsonValue
  stale : Bool

/-- Model of the cache engine's `queryClient.invalidateQueries({ queryKey })`
(an external collaborator, per spec sections 2 and 4.4): every cached entry
whose key the filter key matches is marked stale; all other entries are left
as they are. -/
def invalidateQueries (filterKey : CacheKey) (cache : List CacheEntry) :
    List CacheEntry :=
  cache.map fun e =>
    if keyMatchesFilter filterKey e.key then { e with stale := true } else e

/-- How a `create(input)` mutation settled: with a created product, or with a
thrown failure. -/
inductive MutationOutcome where
  | success (p : Product)
  | failure (e : JsError)

/-- Translation of `useCreateProduct` from
`templates/vite-ts-router/src/features/products/api/mutations.ts`, combined
with the mutation engine's settle protocol (an external collaborator): on
success the hook's `onSuccess` runs
`queryClient.invalidateQueries({ queryKey: ['products'] })`; on failure no
callback runs, so the cache is untouched; either way the settle outcome is
delivered to the caller unchanged. -/
def useCreateProductSettle (outcome : MutationOutcome)
    (cache : List CacheEntry) : List CacheEntry × MutationOutcome :=
  match outcome with
  | MutationOutcome.success p =>
      (invalidateQueries [KeySegment.str "products"] cache,
       MutationOutcome.success p)
  | MutationOutcome.failure e => (cache, MutationOutcome.failure e)

/-- C1 (counterexample): the claim requires a plain object whose `message`
field holds a non-string value to be unrecognized, but on the payload
`{message: 42}` the source predicate `isDataApiErrorResponse` answers `true`
while the spec's recognition invariant answers `false` — the source never
checks the type of the `message` value. -/
theorem isDataApiErrorResponse_nonstring_message_counterexample :
    isDataApiErrorResponse
        (some (JsonValue.obj [("message", JsonValue.num 42)])) = true ∧
    specRecognizedErrorPayload
        (some (JsonValue.obj [("message", JsonValue.num 42)])) = false := by
  exact ⟨by decide, by decide⟩

/-- C1 (amended): `isDataApiErrorResponse` recognizes a parsed body value iff
it is a plain key-value record (not an array, not null, not a scalar, not
`undefined`) that contains the `message` key — with any value, string or not. -/
theorem isDataApiErrorResponse_iff_plain_object_with_message_key
    (data : Option JsonValue) :
    isDataApiErrorResponse data = true ↔
      ∃ kvs, data = some (JsonValue.obj kvs) ∧ ∃ w, ("message", w) ∈ kvs := by
  cases data with
  | none => simp [isDataApiErrorResponse, isPlainObject, hasMessageProperty]
  | some v =>
    cases v with
    | obj kvs =>
      simp only [isDataApiErrorResponse, isPlainObject, hasMessageProperty,
        jsonHasKey, Bool.true_and, List.any_eq_true, beq_iff_eq,
        Option.some.injEq, JsonValue.obj.injEq, exists_eq_left']
      constructor
      · rintro ⟨⟨k, w⟩, hmem, hk⟩
        subst hk
        exact ⟨w, hmem⟩
      · rintro ⟨w, hmem⟩
        exact ⟨("message", w), hmem, rfl⟩
    | null => simp [isDataApiErrorResponse, isPlainObject, hasMessageProperty]
    | bool b => simp [isDataApiErrorResponse, isPlainObject, hasMessageProperty]
    | num n => simp [isDataApiErrorResponse, isPlainObject, hasMessageProperty]
    | str s => simp [isDataApiErrorResponse, isPlainObject, hasMessageProperty]
    | arr xs => simp [isDataApiErrorResponse, isPlainObject, hasMessageProperty]

/-- C2: a transport failure whose body parses to `{message: s}` with `s` a
non-empty string is classified as a thrown `ApiResponseError` that carries
the original transport failure and the parsed payload, and whose `message`
equals `s`. -/
theorem throwApiResponseErrFromKyErr_recognized_message
    (e : HTTPError) (s : String) (hs : s ≠ "")
    (hb : e.response.json =
      Except.ok (JsonValue.obj [("message", JsonValue.str s)])) :
    throwApiResponseErrFromKyErr (JsError.httpError e) =
      Outcome.throws (JsError.apiResponseError
        { err := e, data := JsonValue.obj [("message", JsonValue.str s)] }) ∧
    ApiResponseError.message
        { err := e, data := JsonValue.obj [("message", JsonValue.str s)] } = s := by
  constructor
  · simp +decide [throwApiResponseErrFromKyErr, hb, isDataApiErrorResponse,
      isPlainObject, hasMessageProperty, jsonHasKey]
  · simp +decide [ApiResponseError.message, jsonLookup, List.find?, jsStringOf]

/-- C2 (witness): instantiation at the spec's own example, the body
`{message: "invalid filter"}`. -/
theorem throwApiResponseErrFromKyErr_recognized_message_witness :
    ("invalid filter" : String) ≠ "" ∧
    (throwApiResponseErrFromKyErr (JsError.httpError
        ⟨0, ⟨Except.ok (JsonValue.obj
          [("message", JsonValue.str "invalid filter")])⟩⟩) =
      Outcome.throws (JsError.apiResponseError
        ⟨⟨0, ⟨Except.ok (JsonValue.obj
            [("message", JsonValue.str "invalid filter")])⟩⟩,
         JsonValue.obj [("message", JsonValue.str "invalid filter")]⟩) ∧
    ApiResponseError.message
        ⟨⟨0, ⟨Except.ok (JsonValue.obj
            [("message", JsonValue.str "invalid filter")])⟩⟩,
         JsonValue.obj [("message", JsonValue.str "invalid filter")]⟩
        = "invalid filter") :=
  ⟨by decide,
   throwApiResponseErrFromKyErr_recognized_message _ "invalid filter"
     (by decide) rfl⟩

/-- C3: a failure value that is not an `HTTPError` instance is re-thrown
exactly as it is, and the classifier never reaches the body read. -/
theorem throwApiResponseErrFromKyErr_nonTransport_rethrows
    (err : JsError) (h : isHttpError err = false) :
    throwApiResponseErrFromKyErr err = Outcome.throws err ∧
    classifierReadsBody err = false := by
  cases err with
  | httpError e => simp [isHttpError] at h
  | apiResponseError a => exact ⟨rfl, rfl⟩
  | bodyReadError t => exact ⟨rfl, rfl⟩
  | foreign t => exact ⟨rfl, rfl⟩

/-- C3 (witness): instantiation at an arbitrary non-transport thrown value. -/
theorem throwApiResponseErrFromKyErr_nonTransport_rethrows_witness :
    isHttpError (JsError.foreign 7) = false ∧
    (throwApiResponseErrFromKyErr (JsError.foreign 7) =
        Outcome.throws (JsError.foreign 7) ∧
      classifierReadsBody (JsError.foreign 7) = false) :=
  ⟨rfl, throwApiResponseErrFromKyErr_nonTransport_rethrows (JsError.foreign 7) rfl⟩

/-- C4 (code bug, behavior at the failing input): on a transport failure whose
body read fails, `throwApiResponseErrFromKyErr` propagates the body-read
rejection — a value different from the original transport failure — whereas
the `beforeError` hook variant catches the failed read and re-throws the
original failure unchanged, as the spec requires of classification. -/
theorem throwApiResponseErrFromKyErr_bodyRead_failure (n t : Nat) :
    throwApiResponseErrFromKyErr
        (JsError.httpError ⟨n, ⟨Except.error t⟩⟩) =
      Outcome.throws (JsError.bodyReadError t) ∧
    Outcome.throws (JsError.bodyReadError t) ≠
      Outcome.throws (JsError.httpError ⟨n, ⟨Except.error t⟩⟩) ∧
    apiClientBeforeError ⟨n, ⟨Except.error t⟩⟩ =
      Outcome.throws (JsError.httpError ⟨n, ⟨Except.error t⟩⟩) := by
  refine ⟨rfl, ?_, rfl⟩
  intro h
  injection h with h1
  exact JsError.noConfusion h1

/-- C5: a transport failure whose body parses but is not recognized is
re-thrown as the identical original failure value — by the catch-handler
classifier and by the `beforeError` hook alike. -/
theorem throwApiResponseErrFromKyErr_unrecognized_rethrows
    (e : HTTPError) (v : JsonValue)
    (hb : e.response.json = Except.ok v)
    (hv : isDataApiErrorResponse (some v) = false) :
    throwApiResponseErrFromKyErr (JsError.httpError e) =
      Outcome.throws (JsError.httpError e) ∧
    apiClientBeforeError e = Outcome.throws (JsError.httpError e) := by
  constructor
  · simp [throwApiResponseErrFromKyErr, hb, hv]
  · simp [apiClientBeforeError, hb, hv]

/-- C5 (witness): instantiation at a transport failure whose body is the
non-object payload `[]`. -/
theorem throwApiResponseErrFromKyErr_unrecognized_rethrows_witness :
    (⟨1, ⟨Except.ok (JsonValue.arr [])⟩⟩ : HTTPError).response.json =
      Except.ok (JsonValue.arr []) ∧
    isDataApiErrorResponse (some (JsonValue.arr [])) = false ∧
    (throwApiResponseErrFromKyErr
        (JsError.httpError ⟨1, ⟨Except.ok (JsonValue.arr [])⟩⟩) =
      Outcome.throws (JsError.httpError ⟨1, ⟨Except.ok (JsonValue.arr [])⟩⟩) ∧
    apiClientBeforeError ⟨1, ⟨Except.ok (JsonValue.arr [])⟩⟩ =
      Outcome.throws (JsError.httpError ⟨1, ⟨Except.ok (JsonValue.arr [])⟩⟩)) :=
  ⟨rfl, rfl,
   throwApiResponseErrFromKyErr_unrecognized_rethrows
     ⟨1, ⟨Except.ok (JsonValue.arr [])⟩⟩ (JsonValue.arr []) rfl rfl⟩

/-- C9 (counterexample): on a transport failure whose body read fails,
`throwApiResponseErrFromKyErr` throws the body-read rejection, which is
neither the original input / original transport failure nor an
`ApiResponseError` — so the claim's enumeration of thrown values is wrong. -/
theorem throwApiResponseErrFromKyErr_enumeration_counterexample :
    throwApiResponseErrFromKyErr
        (JsError.httpError ⟨0, ⟨Except.error 0⟩⟩) =
      Outcome.throws (JsError.bodyReadError 0) ∧
    ¬ ∃ t, throwApiResponseErrFromKyErr
          (JsError.httpError ⟨0, ⟨Except.error 0⟩⟩) = Outcome.throws t ∧
        (t = JsError.httpError ⟨0, ⟨Except.error 0⟩⟩ ∨
          ∃ a, t = JsError.apiResponseError a) := by
  refine ⟨rfl, ?_⟩
  rintro ⟨t, ht, hcase⟩
  have ht' : Outcome.throws (JsError.bodyReadError 0) = Outcome.throws t := ht
  injection ht' with ht''
  subst ht''
  rcases hcase with h | ⟨a, h⟩
  · exact JsError.noConfusion h
  · exact JsError.noConfusion h

/-- C9 (amended): `throwApiResponseErrFromKyErr` never resolves with a value;
every execution path throws — the original input unchanged, a newly
constructed `ApiResponseError`, or (when the body read fails) the body-read
rejection. -/
theorem throwApiResponseErrFromKyErr_always_throws (err : JsError) :
    (∃ t, throwApiResponseErrFromKyErr err = Outcome.throws t ∧
      (t = err ∨ (∃ a, t = JsError.apiResponseError a) ∨
        ∃ k, t = JsError.bodyReadError k)) ∧
    ∀ v, throwApiResponseErrFromKyErr err ≠ Outcome.resolves v := by
  cases err with
  | httpError e =>
    cases hb : e.response.json with
    | error t =>
      constructor
      · exact ⟨JsError.bodyReadError t,
          by simp [throwApiResponseErrFromKyErr, hb],
          Or.inr (Or.inr ⟨t, rfl⟩)⟩
      · intro v h
        simp [throwApiResponseErrFromKyErr, hb] at h
    | ok data =>
      cases hd : isDataApiErrorResponse (some data) with
      | true =>
        constructor
        · exact ⟨JsError.apiResponseError ⟨e, data⟩,
            by simp [throwApiResponseErrFromKyErr, hb, hd],
            Or.inr (Or.inl ⟨⟨e, data⟩, rfl⟩)⟩
        · intro v h
          simp [throwApiResponseErrFromKyErr, hb, hd] at h
      | false =>
        constructor
        · exact ⟨JsError.httpError e,
            by simp [throwApiResponseErrFromKyErr, hb, hd], Or.inl rfl⟩
        · intro v h
          simp [throwApiResponseErrFromKyErr, hb, hd] at h
  | apiResponseError a =>
    exact ⟨⟨JsError.apiResponseError a, rfl, Or.inl rfl⟩,
      fun v h => Outcome.noConfusion h⟩
  | bodyReadError t =>
    exact ⟨⟨JsError.bodyReadError t, rfl, Or.inl rfl⟩,
      fun v h => Outcome.noConfusion h⟩
  | foreign t =>
    exact ⟨⟨JsError.foreign t, rfl, Or.inl rfl⟩,
      fun v h => Outcome.noConfusion h⟩

/-- C10: only the key named `message` is consulted — a transport failure whose
parsed body is `{detail: s}` is not recognized and is re-thrown unchanged by
both classifier variants, never converted into an `ApiResponseError`. -/
theorem detail_payload_not_recognized
    (e : HTTPError) (s : String)
    (hb : e.response.json =
      Except.ok (JsonValue.obj [("detail", JsonValue.str s)])) :
    isDataApiErrorResponse
        (some (JsonValue.obj [("detail", JsonValue.str s)])) = false ∧
    throwApiResponseErrFromKyErr (JsError.httpError e) =
      Outcome.throws (JsError.httpError e) ∧
    apiClientBeforeError e = Outcome.throws (JsError.httpError e) := by
  have hrec : isDataApiErrorResponse
      (some (JsonValue.obj [("detail", JsonValue.str s)])) = false := by
    simp +decide [isDataApiErrorResponse, isPlainObject, hasMessageProperty,
      jsonHasKey]
  exact ⟨hrec, by simp [throwApiResponseErrFromKyErr, hb, hrec],
    by simp [apiClientBeforeError, hb, hrec]⟩

/-- C10 (witness): instantiation at a transport failure with body
`{detail: "boom"}`. -/
theorem detail_payload_not_recognized_witness :
    (⟨2, ⟨Except.ok (JsonValue.obj [("detail", JsonValue.str "boom")])⟩⟩ :
        HTTPError).response.json =
      Except.ok (JsonValue.obj [("detail", JsonValue.str "boom")]) ∧
    (isDataApiErrorResponse
        (some (JsonValue.obj [("detail", JsonValue.str "boom")])) = false ∧
    throwApiResponseErrFromKyErr (JsError.httpError
        ⟨2, ⟨Except.ok (JsonValue.obj [("detail", JsonValue.str "boom")])⟩⟩) =
      Outcome.throws (JsError.httpError
        ⟨2, ⟨Except.ok (JsonValue.obj [("detail", JsonValue.str "boom")])⟩⟩) ∧
    apiClientBeforeError
        ⟨2, ⟨Except.ok (JsonValue.obj [("detail", JsonValue.str "boom")])⟩⟩ =
      Outcome.throws (JsError.httpError
        ⟨2, ⟨Except.ok (JsonValue.obj [("detail", JsonValue.str "boom")])⟩⟩)) :=
  ⟨rfl,
   detail_payload_not_recognized
     ⟨2, ⟨Except.ok (JsonValue.obj [("detail", JsonValue.str "boom")])⟩⟩
     "boom" rfl⟩

/-- C6: structurally equal params (deep equality, insensitive to object-key
insertion order) yield structurally equal cache keys from the query option
factories. -/
theorem queryOption_keys_structurally_stable
    (p₁ p₂ : Option JsonValue) (hp : paramsDeepEqual p₁ p₂) (id : String) :
    keyStructEqual (listProductsOptions p₁).queryKey
      (listProductsOptions p₂).queryKey ∧
    keyStructEqual (productDetailOptions id).queryKey
      (productDetailOptions id).queryKey := by
  constructor
  · exact List.Forall₂.cons rfl
      (List.Forall₂.cons rfl (List.Forall₂.cons hp List.Forall₂.nil))
  · exact List.Forall₂.cons rfl
      (List.Forall₂.cons rfl (List.Forall₂.cons rfl List.Forall₂.nil))

/-- C6 (witness): instantiation at two params objects with the same fields
inserted in opposite orders. -/
theorem queryOption_keys_structurally_stable_witness :
    paramsDeepEqual
        (some (JsonValue.obj
          [("q", JsonValue.str "foo"), ("page", JsonValue.num 1)]))
        (some (JsonValue.obj
          [("page", JsonValue.num 1), ("q", JsonValue.str "foo")])) ∧
    (keyStructEqual
        (listProductsOptions (some (JsonValue.obj
          [("q", JsonValue.str "foo"), ("page", JsonValue.num 1)]))).queryKey
        (listProductsOptions (some (JsonValue.obj
          [("page", JsonValue.num 1), ("q", JsonValue.str "foo")]))).queryKey ∧
      keyStructEqual (productDetailOptions "42").queryKey
        (productDetailOptions "42").queryKey) := by
  have hp : paramsDeepEqual
      (some (JsonValue.obj
        [("q", JsonValue.str "foo"), ("page", JsonValue.num 1)]))
      (some (JsonValue.obj
        [("page", JsonValue.num 1), ("q", JsonValue.str "foo")])) := by
    simp +decide [paramsDeepEqual, normalizeJson, normalizeJsonKvs, sortKvs,
      insertKv]
  exact ⟨hp, queryOption_keys_structurally_stable _ _ hp "42"⟩

/-- The filter key `['products']` matches a cached key exactly when that key's
first segment is the string `"products"`. -/
theorem keyMatchesFilter_products_iff (key : CacheKey) :
    keyMatchesFilter [KeySegment.str "products"] key = true ↔
      ∃ rest, key = KeySegment.str "products" :: rest := by
  cases key with
  | nil =>
    simp [keyMatchesFilter]
  | cons k ks =>
    cases k with
    | str a =>
      simp only [keyMatchesFilter, segBeq, Bool.and_eq_true, beq_iff_eq]
      constructor
      · rintro ⟨h1, _⟩
        exact ⟨ks, by rw [← h1]⟩
      · rintro ⟨rest, hr⟩
        injection hr with h1 h2
        injection h1 with h3
        exact ⟨h3.symm, trivial⟩
    | json v =>
      simp only [keyMatchesFilter, segBeq]
      constructor
      · intro h
        exact absurd h (by simp)
      · rintro ⟨rest, hr⟩
        injection hr with h1 _
        exact KeySegment.noConfusion h1

/-- C7: after a successful `create(input)` mutation, the resulting cache is
the old cache with exactly the entries whose key's first segment is
`"products"` marked stale (key and value untouched); every entry whose key
does not start with the `"products"` segment is left entirely unchanged. -/
theorem useCreateProduct_success_invalidation
    (p : Product) (cache : List CacheEntry) :
    List.Forall₂ (fun e eNew =>
        eNew.key = e.key ∧ eNew.value = e.value ∧
        (∀ rest, e.key = KeySegment.str "products" :: rest →
          eNew.stale = true) ∧
        ((∀ rest, e.key ≠ KeySegment.str "products" :: rest) → eNew = e))
      cache (useCreateProductSettle (MutationOutcome.success p) cache).1 := by
  have hmap : (useCreateProductSettle (MutationOutcome.success p) cache).1 =
      cache.map (fun e =>
        if keyMatchesFilter [KeySegment.str "products"] e.key then
          { e with stale := true } else e) := rfl
  rw [hmap, List.forall₂_map_right_iff]
  refine List.forall₂_same.mpr ?_
  intro e he
  cases hm : keyMatchesFilter [KeySegment.str "products"] e.key with
  | true =>
    refine ⟨rfl, rfl, fun rest hrest => rfl, fun hall => ?_⟩
    exfalso
    obtain ⟨rest, hrest⟩ := (keyMatchesFilter_products_iff e.key).mp hm
    exact hall rest hrest
  | false =>
    refine ⟨rfl, rfl, fun rest hrest => ?_, fun _ => rfl⟩
    exfalso
    have hm' : keyMatchesFilter [KeySegment.str "products"] e.key = true :=
      (keyMatchesFilter_products_iff e.key).mpr ⟨rest, hrest⟩
    rw [hm] at hm'
    exact Bool.noConfusion hm'

/-- C7 (witness): instantiation at a cache holding one `products` list entry
and one `orders` list entry. -/
theorem useCreateProduct_success_invalidation_witness :
    List.Forall₂ (fun e eNew =>
        eNew.key = e.key ∧ eNew.value = e.value ∧
        (∀ rest, e.key = KeySegment.str "products" :: rest →
          eNew.stale = true) ∧
        ((∀ rest, e.key ≠ KeySegment.str "products" :: rest) → eNew = e))
      [⟨[KeySegment.str "products", KeySegment.str "list",
          KeySegment.json none], none, false⟩,
       ⟨[KeySegment.str "orders", KeySegment.str "list",
          KeySegment.json none], none, false⟩]
      (useCreateProductSettle (MutationOutcome.success ⟨"1", "Widget"⟩)
        [⟨[KeySegment.str "products", KeySegment.str "list",
            KeySegment.json none], none, false⟩,
         ⟨[KeySegment.str "orders", KeySegment.str "list",
            KeySegment.json none], none, false⟩]).1 :=
  useCreateProduct_success_invalidation ⟨"1", "Widget"⟩
    [⟨[KeySegment.str "products", KeySegment.str "list",
        KeySegment.json none], none, false⟩,
     ⟨[KeySegment.str "orders", KeySegment.str "list",
        KeySegment.json none], none, false⟩]

/-- C8: a `create(input)` mutation that settles with a failure issues no
invalidation — the cache is returned unchanged — and the failure itself is
the mutation's result delivered to the caller. -/
theorem useCreateProduct_failure_no_invalidation
    (e : JsError) (cache : List CacheEntry) :
    useCreateProductSettle (MutationOutcome.failure e) cache =
      (cache, MutationOutcome.failure e) := rfl

end ProjectTemplates
